import Mathlib

/-!
Shallow embedding of the birthday-reminder application.

The source is a Next.js page (`src/app/page.tsx`) with pure helpers
`formatBirthdayDate`, `daysUntil`, `ageTurning`, state handlers
`handleAdd` / `handleDelete`, a load effect `loadData`, and a
local-storage module (`loadBirthdays` / `saveBirthdays`).

JavaScript `Date` values built from local calendar components are modelled
by a proleptic-Gregorian day number plus milliseconds since local
midnight (daylight-saving shifts are abstracted away; the code's
`Math.round` of the millisecond quotient then coincides with exact
day-number subtraction).  `new Date(y, m0, d)` normalizes an arbitrary
integer month `m0` (0-based) and lets the day overflow roll into later
months; `jsDayNumber` reproduces both behaviours.
-/

/-- BirthRecord: the single domain entity of the app (`Birthday` in the
source).  `year` and `photoUrl` are optional; numbers are integers. -/
structure Birthday where
  id : String
  name : String
  day : Int
  month : Int
  year : Option Int
  timezone : String
  photoUrl : Option String
  deriving DecidableEq

/-- Reference instant: a local calendar date plus the elapsed
milliseconds since that date's local midnight. -/
structure Instant where
  year : Int
  month : Int
  day : Int
  msOfDay : Int
  deriving DecidableEq

/-- Gregorian leap-year predicate (as JavaScript's local calendar uses);
`%` on `Int` is Euclidean, so divisibility tests also hold for negative
proleptic years. -/
def isLeap (y : Int) : Prop :=
  (y % 4 = 0 ∧ y % 100 ≠ 0) ∨ y % 400 = 0

instance (y : Int) : Decidable (isLeap y) :=
  inferInstanceAs (Decidable (_ ∨ _))

/-- One extra day in leap years. -/
def leapOffset (y : Int) : Int := if isLeap y then 1 else 0

/-- Day number of January 1 of year `y`, counted from a fixed epoch
(rata die: day 1 is 0001-01-01, so this is the count of days strictly
before year `y` plus one will be added by the day field). -/
def yearStart (y : Int) : Int :=
  365 * (y - 1) + (y - 1) / 4 - (y - 1) / 100 + (y - 1) / 400

/-- Days of year `y` strictly before month `m` (for `m` between 1 and 12). -/
def daysBeforeMonth (y : Int) (m : Int) : Int :=
  (if m ≤ 1 then 0
   else if m = 2 then 31
   else if m = 3 then 59
   else if m = 4 then 90
   else if m = 5 then 120
   else if m = 6 then 151
   else if m = 7 then 181
   else if m = 8 then 212
   else if m = 9 then 243
   else if m = 10 then 273
   else if m = 11 then 304
   else 334)
  + (if 3 ≤ m then leapOffset y else 0)

/-- Day number of the calendar date `(y, m, d)`, for `m` between 1 and 12;
`d` may overflow the month and rolls into the following ones, as the
JavaScript `Date` constructor does. -/
def civilDayNumber (y m d : Int) : Int :=
  yearStart y + daysBeforeMonth y m + d

/-- Day number of the local midnight denoted by `new Date(y, m0, d)`:
the 0-based month `m0` is first normalized into the year, then the day
offset is applied. -/
def jsDayNumber (y m0 d : Int) : Int :=
  civilDayNumber (y + m0 / 12) (m0 % 12 + 1) d

/-- Milliseconds in a day (`1000 * 60 * 60 * 24`). -/
def msPerDay : Int := 86400000

/-- Month names table from the source. -/
def MONTH_NAMES : List String :=
  ["January", "February", "March", "April", "May", "June",
   "July", "August", "September", "October", "November", "December"]

/-- Source `formatBirthdayDate`: the month name is looked up at index
`month - 1` (an out-of-range index yields `undefined`, replaced by the
fallback label through the nullish-coalescing operator), then the day is
prepended. -/
def formatBirthdayDate (b : Birthday) : String :=
  let monthName :=
    match (if 1 ≤ b.month then MONTH_NAMES.get? (b.month - 1).toNat else none) with
    | some s => s
    | none => "Month " ++ toString b.month
  toString b.day ++ " " ++ monthName

/-- Source `daysUntil`: candidate anniversary in the reference year,
advanced to the next year when strictly before today's midnight; the
result is the day-number difference (the source divides the millisecond
difference of two local midnights by `msPerDay` and rounds). -/
def daysUntil (b : Birthday) (ref : Instant) : Int :=
  let todayMidnight := jsDayNumber ref.year (ref.month - 1) ref.day
  let next1 := jsDayNumber ref.year (b.month - 1) b.day
  let next :=
    if next1 < todayMidnight then jsDayNumber (ref.year + 1) (b.month - 1) b.day
    else next1
  next - todayMidnight

/-- Source `ageTurning`: `null` when `b.year` is falsy (absent or `0`);
otherwise `referenceYear - year`, minus one when this year's anniversary
midnight is strictly after the reference instant, plus one.  The
comparison is between epoch milliseconds, so the instant's time of day
participates. -/
def ageTurning (b : Birthday) (ref : Instant) : Option Int :=
  match b.year with
  | none => none
  | some y =>
    if y = 0 then none
    else
      some ((if jsDayNumber ref.year (b.month - 1) b.day * msPerDay >
               jsDayNumber ref.year (ref.month - 1) ref.day * msPerDay + ref.msOfDay
             then ref.year - y - 1 else ref.year - y) + 1)

/-- Storage key of the local-storage module. -/
def STORAGE_KEY : String := "birthdays-v1"

/-- Source `loadBirthdays`.  The browser context is abstracted: `hasWindow`
is whether `window` exists, `getItem` is `localStorage.getItem`, and
`parse` models `JSON.parse` (a `none` result models a thrown parse
error, which the source catches and turns into the empty list).  A
stored empty string is falsy in the source's `if (!raw)` check. -/
def loadBirthdays (hasWindow : Bool) (getItem : String → Option String)
    (parse : String → Option (List Birthday)) : List Birthday :=
  if !hasWindow then []
  else
    match getItem STORAGE_KEY with
    | none => []
    | some raw =>
      if raw = "" then []
      else
        match parse raw with
        | some l => l
        | none => []

/-- Source `saveBirthdays`, as a transformer of the key-value store
contents: a no-op without a `window`, otherwise it overwrites the entry
at `STORAGE_KEY` with the serialized list. -/
def saveBirthdays (hasWindow : Bool) (store : String → Option String)
    (serialize : List Birthday → String) (birthdays : List Birthday) :
    String → Option String :=
  if !hasWindow then store
  else fun k => if k = STORAGE_KEY then some (serialize birthdays) else store k

/-- Form data assembled by `handleAdd` before the add/edit branch
(`baseBirthday` in the source): every field of a record except `id`. -/
structure BirthdayBase where
  name : String
  day : Int
  month : Int
  year : Option Int
  timezone : String
  photoUrl : Option String
  deriving DecidableEq

/-- Spread `{ ...b, ...baseBirthday }`: every field replaced except `id`. -/
def withBase (b : Birthday) (base : BirthdayBase) : Birthday :=
  { b with name := base.name, day := base.day, month := base.month,
           year := base.year, timezone := base.timezone, photoUrl := base.photoUrl }

/-- Comparison the source's `.sort((a, b) => daysUntil(a) - daysUntil(b))`
sorts by: ascending days until the next anniversary at the reference
instant. -/
def daysLE (ref : Instant) (a b : Birthday) : Prop :=
  daysUntil a ref ≤ daysUntil b ref

instance (ref : Instant) : DecidableRel (daysLE ref) :=
  fun a b => Int.decLe (daysUntil a ref) (daysUntil b ref)

instance (ref : Instant) : IsTotal Birthday (daysLE ref) :=
  ⟨fun a b => Int.le_total (daysUntil a ref) (daysUntil b ref)⟩

instance (ref : Instant) : IsTrans Birthday (daysLE ref) :=
  ⟨fun _ _ _ h1 h2 => le_trans h1 h2⟩

/-- Source `handleAdd` after its validation guard: in the edit case the
record whose `id` matches `editingId` is replaced wholesale by the form
data (its `id` kept), in the add case a fresh record is appended; either
way the result is stably sorted ascending by `daysUntil` (JavaScript's
stable sort under this total comparator is insertion sort's output). -/
def handleAdd (ref : Instant) (birthdays : List Birthday)
    (editingId : Option String) (newId : String) (base : BirthdayBase) :
    List Birthday :=
  match editingId with
  | some eid =>
    List.insertionSort (daysLE ref)
      (birthdays.map (fun b => if b.id = eid then withBase b base else b))
  | none =>
    List.insertionSort (daysLE ref)
      (birthdays ++ [{ id := newId, name := base.name, day := base.day,
                       month := base.month, year := base.year,
                       timezone := base.timezone, photoUrl := base.photoUrl }])

/-- Source `handleDelete`: keep every record whose `id` differs. -/
def handleDelete (birthdays : List Birthday) (id : String) : List Birthday :=
  birthdays.filter (fun b => b.id != id)

/-- Source `loadData` effect, as a function of its inputs: the state it
leaves is the remote result when the remote load succeeds, otherwise the
local-cache list; neither branch re-sorts. -/
def loadData (cached : List Birthday) (cloudResult : Option (List Birthday)) :
    List Birthday :=
  match cloudResult with
  | some cloud => cloud
  | none => cached

/-- Order the remote store returns records in (`ORDER BY month, day`). -/
def monthDayLE (a b : Birthday) : Prop :=
  a.month < b.month ∨ (a.month = b.month ∧ a.day ≤ b.day)

instance : DecidableRel monthDayLE :=
  fun _ _ => inferInstanceAs (Decidable (_ ∨ _))

/-- Largest day usable with a given month in some Gregorian year. -/
def maxDayOfMonth (m : Int) : Int :=
  if m = 2 then 29
  else if m = 4 ∨ m = 6 ∨ m = 9 ∨ m = 11 then 30
  else 31

/-! Concrete records and instants used by the spec's worked examples and
by the counterexamples. -/

/-- The spec's running example record `{day: 5, month: 5, year: 1985}`. -/
def recMay5 : Birthday :=
  { id := "r1", name := "P", day := 5, month := 5, year := some 1985,
    timezone := "Asia/Tokyo", photoUrl := none }

/-- A record with no birth year (the spec's `{day: 15, month: 8}`). -/
def recNoYear : Birthday :=
  { id := "r2", name := "Q", day := 15, month := 8, year := none,
    timezone := "Asia/Tokyo", photoUrl := none }

/-- A record whose `year` field is present but `0`. -/
def recYearZero : Birthday :=
  { id := "r3", name := "Z", day := 5, month := 5, year := some 0,
    timezone := "Asia/Tokyo", photoUrl := none }

/-- A record with the out-of-range month 13. -/
def recMonth13 : Birthday :=
  { id := "r4", name := "M", day := 5, month := 13, year := none,
    timezone := "Asia/Tokyo", photoUrl := none }

/-- May 5 record used in the sort counterexample. -/
def cexA : Birthday :=
  { id := "a", name := "A", day := 5, month := 5, year := none,
    timezone := "UTC", photoUrl := none }

/-- May 7 record used in the sort counterexample. -/
def cexB : Birthday :=
  { id := "b", name := "B", day := 7, month := 5, year := none,
    timezone := "UTC", photoUrl := none }

/-- Arbitrary form data for exercising the handlers. -/
def cexBase : BirthdayBase :=
  { name := "N", day := 1, month := 1, year := none,
    timezone := "UTC", photoUrl := none }

/-! Calendar facts used by the range proof for `daysUntil`. -/

theorem maxDayOfMonth_le_31 (m : Int) : maxDayOfMonth m ≤ 31 := by
  unfold maxDayOfMonth
  split_ifs <;> omega

theorem leapOffset_nonneg (y : Int) : 0 ≤ leapOffset y ∧ leapOffset y ≤ 1 := by
  unfold leapOffset
  split_ifs <;> omega

/-- Consecutive year starts differ by the length of the year between
them: 365 days, or 366 across a leap year. -/
theorem yearStart_succ (y : Int) :
    yearStart (y + 1) = yearStart y + 365 + leapOffset y := by
  unfold yearStart leapOffset isLeap
  split_ifs with h
  · omega
  · omega

set_option maxHeartbeats 1600000 in
/-- Position of a (possibly day-overflowing) date inside its year: at
least 1, at most the year's length. -/
theorem dayOfYear_bounds (y m d : Int) (h1 : 1 ≤ m) (h2 : m ≤ 12)
    (h3 : 1 ≤ d) (h4 : d ≤ 31) :
    1 ≤ daysBeforeMonth y m + d ∧
      daysBeforeMonth y m + d ≤ 365 + leapOffset y := by
  unfold daysBeforeMonth leapOffset
  split_ifs <;> omega

set_option maxHeartbeats 1600000 in
/-- The prefix sums of month lengths in two different years differ by at
most the one leap day. -/
theorem daysBeforeMonth_diff (y1 y2 m : Int) :
    daysBeforeMonth y1 m - daysBeforeMonth y2 m ≤ 1 ∧
      -1 ≤ daysBeforeMonth y1 m - daysBeforeMonth y2 m := by
  unfold daysBeforeMonth leapOffset
  split_ifs <;> omega

/-- For an in-range month the JavaScript constructor's normalization is
the identity. -/
theorem jsDayNumber_eq_civil (y m d : Int) (h1 : 1 ≤ m) (h2 : m ≤ 12) :
    jsDayNumber y (m - 1) d = civilDayNumber y m d := by
  unfold jsDayNumber
  rw [show (m - 1) / 12 = 0 by omega, show (m - 1) % 12 = m - 1 by omega]
  norm_num

/-! Claim theorems. -/

/-- C1 (counterexample): for the record `{day: 5, month: 5, year: 1985}`
at the reference instant 2024-05-05 (midnight), `daysUntil` does return
0 but `ageTurning` returns 40, not 39: the claimed conjunction is false. -/
theorem C1_counterexample :
    ¬ (daysUntil recMay5 ⟨2024, 5, 5, 0⟩ = 0 ∧
        ageTurning recMay5 ⟨2024, 5, 5, 0⟩ = some 39) := by
  decide

/-- C1 (amended): for the record `{day: 5, month: 5, year: 1985}` at any
reference instant during 2024-05-05, `daysUntilNextOccurrence` returns 0
and `ageTurning` returns 40 (the code adds one to the already-reached
anniversary difference on the day itself). -/
theorem C1_theorem (ms : Int) (h0 : 0 ≤ ms) (h1 : ms < 86400000) :
    daysUntil recMay5 ⟨2024, 5, 5, ms⟩ = 0 ∧
      ageTurning recMay5 ⟨2024, 5, 5, ms⟩ = some 40 := by
  have hJ : jsDayNumber 2024 ((5 : Int) - 1) 5 = 739011 := by decide
  refine ⟨rfl, ?_⟩
  simp only [ageTurning, recMay5, hJ, msPerDay]
  split_ifs <;> first | omega | norm_num

/-- C1 (witness): the amended statement evaluated at midnight. -/
theorem C1_witness :
    (0 : Int) ≤ 0 ∧ (0 : Int) < 86400000 ∧
      (daysUntil recMay5 ⟨2024, 5, 5, 0⟩ = 0 ∧
        ageTurning recMay5 ⟨2024, 5, 5, 0⟩ = some 40) :=
  ⟨by decide, by decide, C1_theorem 0 (by decide) (by decide)⟩

/-- C3: for every record whose day is in range for its month and every
reference instant on a real calendar date, `daysUntil` lies in
`[0, 366]`, and is exactly 0 when the record's month and day equal the
reference date's. -/
theorem C3_theorem (b : Birthday) (ref : Instant)
    (hbm1 : 1 ≤ b.month) (hbm2 : b.month ≤ 12)
    (hbd1 : 1 ≤ b.day) (hbd2 : b.day ≤ maxDayOfMonth b.month)
    (hrm1 : 1 ≤ ref.month) (hrm2 : ref.month ≤ 12)
    (hrd1 : 1 ≤ ref.day) (hrd2 : ref.day ≤ maxDayOfMonth ref.month) :
    (0 ≤ daysUntil b ref ∧ daysUntil b ref ≤ 366) ∧
      (b.month = ref.month ∧ b.day = ref.day → daysUntil b ref = 0) := by
  have hbd31 : b.day ≤ 31 := le_trans hbd2 (maxDayOfMonth_le_31 b.month)
  have hrd31 : ref.day ≤ 31 := le_trans hrd2 (maxDayOfMonth_le_31 ref.month)
  have hys := yearStart_succ ref.year
  have hL0 := leapOffset_nonneg ref.year
  have hL1 := leapOffset_nonneg (ref.year + 1)
  have hb1 := dayOfYear_bounds ref.year b.month b.day hbm1 hbm2 hbd1 hbd31
  have hb2 := dayOfYear_bounds (ref.year + 1) b.month b.day hbm1 hbm2 hbd1 hbd31
  have hr := dayOfYear_bounds ref.year ref.month ref.day hrm1 hrm2 hrd1 hrd31
  have hdiff := daysBeforeMonth_diff (ref.year + 1) ref.year b.month
  simp only [daysUntil,
    jsDayNumber_eq_civil ref.year ref.month ref.day hrm1 hrm2,
    jsDayNumber_eq_civil ref.year b.month b.day hbm1 hbm2,
    jsDayNumber_eq_civil (ref.year + 1) b.month b.day hbm1 hbm2,
    civilDayNumber]
  constructor
  · split_ifs with h <;> omega
  · rintro ⟨he1, he2⟩
    rw [he1, he2]
    split_ifs with h <;> omega

/-- C3 (witness): the range statement evaluated for the example record
at 2024-05-06, where the candidate rolls to the next year. -/
theorem C3_witness :
    ((1 : Int) ≤ recMay5.month ∧ recMay5.month ≤ 12 ∧
      (1 : Int) ≤ recMay5.day ∧ recMay5.day ≤ maxDayOfMonth recMay5.month) ∧
    ((1 : Int) ≤ (5 : Int) ∧ (5 : Int) ≤ 12 ∧
      (1 : Int) ≤ (6 : Int) ∧ (6 : Int) ≤ maxDayOfMonth 5) ∧
    ((0 ≤ daysUntil recMay5 ⟨2024, 5, 6, 0⟩ ∧
        daysUntil recMay5 ⟨2024, 5, 6, 0⟩ ≤ 366) ∧
      (recMay5.month = (5 : Int) ∧ recMay5.day = (6 : Int) →
        daysUntil recMay5 ⟨2024, 5, 6, 0⟩ = 0)) :=
  ⟨by decide, by decide,
    C3_theorem recMay5 ⟨2024, 5, 6, 0⟩ (by decide) (by decide) (by decide)
      (by decide) (by decide) (by decide) (by decide) (by decide)⟩

/-- C4 (counterexample): the record with `year = 0` has its year present
and not greater than the reference year 2024, yet `ageTurning` returns
`null` rather than a non-negative integer, because `0` is falsy in the
source's presence test. -/
theorem C4_counterexample :
    recYearZero.year = some 0 ∧ (0 : Int) ≤ 2024 ∧
      ageTurning recYearZero ⟨2024, 5, 5, 0⟩ = none := by
  decide

/-- C4 (amended): for every record whose year is present, nonzero, and
not greater than the reference instant's year, `ageTurning` returns a
non-negative integer. -/
theorem C4_theorem (b : Birthday) (ref : Instant) (y : Int)
    (hy : b.year = some y) (hz : y ≠ 0) (hle : y ≤ ref.year) :
    ∃ n : Int, ageTurning b ref = some n ∧ 0 ≤ n := by
  simp only [ageTurning, hy]
  rw [if_neg hz]
  refine ⟨_, rfl, ?_⟩
  split_ifs <;> omega

/-- C4 (witness): the amended statement for the example record at
2024-05-01. -/
theorem C4_witness :
    recMay5.year = some 1985 ∧ (1985 : Int) ≠ 0 ∧
      (1985 : Int) ≤ (2024 : Int) ∧
      ∃ n : Int, ageTurning recMay5 ⟨2024, 5, 1, 0⟩ = some n ∧ 0 ≤ n :=
  ⟨by decide, by decide, by decide,
    C4_theorem recMay5 ⟨2024, 5, 1, 0⟩ 1985 (by decide) (by decide) (by decide)⟩

/-- C5: whenever the year field is absent, `ageTurning` returns `null`
(the "unknown" value), for any day, month and reference instant. -/
theorem C5_theorem (b : Birthday) (ref : Instant) (h : b.year = none) :
    ageTurning b ref = none := by
  simp only [ageTurning, h]

/-- C5 (witness): the no-year example record at 2024-05-05. -/
theorem C5_witness :
    recNoYear.year = none ∧ ageTurning recNoYear ⟨2024, 5, 5, 0⟩ = none :=
  ⟨by decide, C5_theorem recNoYear ⟨2024, 5, 5, 0⟩ (by decide)⟩

/-- C6: for the record `{day: 5, month: 5, year: 1985}`, any reference
instant during 2024-05-01 gives `daysUntil` 4 and `ageTurning` 39, and
any reference instant during 2024-05-06 gives `daysUntil` 364 (the
candidate rolls to 2025) and `ageTurning` 40. -/
theorem C6_theorem (ms : Int) (h0 : 0 ≤ ms) (h1 : ms < 86400000) :
    (daysUntil recMay5 ⟨2024, 5, 1, ms⟩ = 4 ∧
      ageTurning recMay5 ⟨2024, 5, 1, ms⟩ = some 39) ∧
    (daysUntil recMay5 ⟨2024, 5, 6, ms⟩ = 364 ∧
      ageTurning recMay5 ⟨2024, 5, 6, ms⟩ = some 40) := by
  have hJ : jsDayNumber 2024 ((5 : Int) - 1) 5 = 739011 := by decide
  have hT1 : jsDayNumber 2024 ((5 : Int) - 1) 1 = 739007 := by decide
  have hT6 : jsDayNumber 2024 ((5 : Int) - 1) 6 = 739012 := by decide
  refine ⟨⟨rfl, ?_⟩, ⟨rfl, ?_⟩⟩
  · simp only [ageTurning, recMay5, hJ, hT1, msPerDay]
    split_ifs <;> first | omega | norm_num
  · simp only [ageTurning, recMay5, hJ, hT6, msPerDay]
    split_ifs <;> first | omega | norm_num

/-- C6 (witness): both reference instants taken at midnight. -/
theorem C6_witness :
    (0 : Int) ≤ 0 ∧ (0 : Int) < 86400000 ∧
      ((daysUntil recMay5 ⟨2024, 5, 1, 0⟩ = 4 ∧
          ageTurning recMay5 ⟨2024, 5, 1, 0⟩ = some 39) ∧
        (daysUntil recMay5 ⟨2024, 5, 6, 0⟩ = 364 ∧
          ageTurning recMay5 ⟨2024, 5, 6, 0⟩ = some 40)) :=
  ⟨by decide, by decide, C6_theorem 0 (by decide) (by decide)⟩

/-- C10: whenever the year field is present but equal to 0, `ageTurning`
returns `null` rather than computing an age, because the source's
presence check `!b.year` is a falsy test. -/
theorem C10_theorem (b : Birthday) (ref : Instant) (h : b.year = some 0) :
    ageTurning b ref = none := by
  simp [ageTurning, h]

/-- C10 (witness): the year-zero record at 2024-05-05. -/
theorem C10_witness :
    recYearZero.year = some 0 ∧
      ageTurning recYearZero ⟨2024, 5, 5, 0⟩ = none :=
  ⟨by decide, C10_theorem recYearZero ⟨2024, 5, 5, 0⟩ (by decide)⟩

/-- C2 (counterexample): a load from the remote store sets the displayed
list to the remote's `(month, day)`-ascending order without re-sorting;
at reference date 2024-05-06 the list `[May 5, May 7]` (a legitimate
remote result) is not ascending by `daysUntil` (364 before 1), so the
claim fails for the load operation. -/
theorem C2_counterexample :
    List.Pairwise monthDayLE [cexA, cexB] ∧
      loadData [] (some [cexA, cexB]) = [cexA, cexB] ∧
      ¬ List.Sorted (daysLE ⟨2024, 5, 6, 0⟩) (loadData [] (some [cexA, cexB])) := by
  decide

/-- C2 (amended): after an add or edit submission the list is ascending
by the `daysUntil` value computed at that moment, and a delete preserves
the relative order of the remaining records (so a list sorted for a
given instant stays sorted); loads display the loaded sequence as
stored, without re-sorting. -/
theorem C2_theorem (ref : Instant) (l : List Birthday) (editingId : Option String)
    (newId : String) (base : BirthdayBase) (dId : String) :
    List.Sorted (daysLE ref) (handleAdd ref l editingId newId base) ∧
    (List.Sorted (daysLE ref) l →
      List.Sorted (daysLE ref) (handleDelete l dId)) := by
  constructor
  · cases editingId with
    | some eid => exact List.sorted_insertionSort (daysLE ref) _
    | none => exact List.sorted_insertionSort (daysLE ref) _
  · intro h
    exact h.filter _

/-- C2 (witness): an add into a sorted two-element list and a delete from
it, at the 2024-05-06 reference instant. -/
theorem C2_witness :
    List.Sorted (daysLE ⟨2024, 5, 6, 0⟩) [cexB, cexA] ∧
      List.Sorted (daysLE ⟨2024, 5, 6, 0⟩)
        (handleAdd ⟨2024, 5, 6, 0⟩ [cexB, cexA] none "n" cexBase) ∧
      List.Sorted (daysLE ⟨2024, 5, 6, 0⟩) (handleDelete [cexB, cexA] "a") :=
  ⟨by decide,
    (C2_theorem ⟨2024, 5, 6, 0⟩ [cexB, cexA] none "n" cexBase "a").1,
    (C2_theorem ⟨2024, 5, 6, 0⟩ [cexB, cexA] none "n" cexBase "a").2 (by decide)⟩

/-- C7: `formatBirthdayDate` maps each month 1 through 12 to its
canonical English name appended after the day, and every other month to
the fallback label `"Month n"` in the month-name position (the function
is total, so no exception can be raised). -/
theorem C7_theorem (b : Birthday) :
    (b.month = 1 → formatBirthdayDate b = toString b.day ++ " " ++ "January") ∧
    (b.month = 2 → formatBirthdayDate b = toString b.day ++ " " ++ "February") ∧
    (b.month = 3 → formatBirthdayDate b = toString b.day ++ " " ++ "March") ∧
    (b.month = 4 → formatBirthdayDate b = toString b.day ++ " " ++ "April") ∧
    (b.month = 5 → formatBirthdayDate b = toString b.day ++ " " ++ "May") ∧
    (b.month = 6 → formatBirthdayDate b = toString b.day ++ " " ++ "June") ∧
    (b.month = 7 → formatBirthdayDate b = toString b.day ++ " " ++ "July") ∧
    (b.month = 8 → formatBirthdayDate b = toString b.day ++ " " ++ "August") ∧
    (b.month = 9 → formatBirthdayDate b = toString b.day ++ " " ++ "September") ∧
    (b.month = 10 → formatBirthdayDate b = toString b.day ++ " " ++ "October") ∧
    (b.month = 11 → formatBirthdayDate b = toString b.day ++ " " ++ "November") ∧
    (b.month = 12 → formatBirthdayDate b = toString b.day ++ " " ++ "December") ∧
    (b.month < 1 ∨ 12 < b.month →
      formatBirthdayDate b =
        toString b.day ++ " " ++ ("Month " ++ toString b.month)) := by
  refine ⟨?_, ?_, ?_, ?_, ?_, ?_, ?_, ?_, ?_, ?_, ?_, ?_, ?_⟩ <;> intro h
  case _ => simp [formatBirthdayDate, MONTH_NAMES, h]
  case _ => simp [formatBirthdayDate, MONTH_NAMES, h]
  case _ => simp [formatBirthdayDate, MONTH_NAMES, h]
  case _ => simp [formatBirthdayDate, MONTH_NAMES, h]
  case _ => simp [formatBirthdayDate, MONTH_NAMES, h]
  case _ => simp [formatBirthdayDate, MONTH_NAMES, h]
  case _ => simp [formatBirthdayDate, MONTH_NAMES, h]
  case _ => simp [formatBirthdayDate, MONTH_NAMES, h]
  case _ => simp [formatBirthdayDate, MONTH_NAMES, h]
  case _ => simp [formatBirthdayDate, MONTH_NAMES, h]
  case _ => simp [formatBirthdayDate, MONTH_NAMES, h]
  case _ => simp [formatBirthdayDate, MONTH_NAMES, h]
  case _ =>
    have hnone :
        (if 1 ≤ b.month then MONTH_NAMES.get? (b.month - 1).toNat else none) =
          none := by
      rcases h with h | h
      · rw [if_neg (by omega)]
      · rw [if_pos (by omega)]
        rw [List.get?_eq_none]
        simp [MONTH_NAMES]
        omega
    simp only [formatBirthdayDate]
    rw [hnone]

/-- C7 (witness): the in-range example `"5 May"` and the month-13
fallback, both from the theorem. -/
theorem C7_witness :
    formatBirthdayDate recMay5 = toString recMay5.day ++ " " ++ "May" ∧
      formatBirthdayDate recMonth13 =
        toString recMonth13.day ++ " " ++ ("Month " ++ toString recMonth13.month) :=
  ⟨(C7_theorem recMay5).2.2.2.2.1 (by decide),
    (C7_theorem recMonth13).2.2.2.2.2.2.2.2.2.2.2.2 (by decide)⟩

/-- C8: the local-cache load returns the empty sequence when there is no
`window`, when nothing is stored, or when the stored data fails to parse
(the parse failure is swallowed into the empty list, never surfaced);
the save is a no-op on the store when there is no `window`. -/
theorem C8_theorem (getItem : String → Option String)
    (parse : String → Option (List Birthday))
    (store : String → Option String) (serialize : List Birthday → String)
    (l : List Birthday) :
    loadBirthdays false getItem parse = [] ∧
    (getItem STORAGE_KEY = none → loadBirthdays true getItem parse = []) ∧
    (∀ raw, getItem STORAGE_KEY = some raw → parse raw = none →
      loadBirthdays true getItem parse = []) ∧
    saveBirthdays false store serialize l = store := by
  refine ⟨rfl, ?_, ?_, rfl⟩
  · intro h
    simp [loadBirthdays, h]
  · intro raw h1 h2
    simp [loadBirthdays, h1, h2]

/-- C8 (witness): an empty store and an unparsable store, both loading
to the empty list. -/
theorem C8_witness :
    loadBirthdays true (fun _ => none) (fun _ => none) = [] ∧
    loadBirthdays true (fun _ => some "bad") (fun _ => none) = [] :=
  ⟨(C8_theorem (fun _ => none) (fun _ => none) (fun _ => none)
      (fun _ => "") []).2.1 rfl,
   (C8_theorem (fun _ => some "bad") (fun _ => none) (fun _ => none)
      (fun _ => "") []).2.2.1 "bad" rfl rfl⟩

/-- C9: an edit submission produces (up to the sort's reordering) the
old collection with exactly the record whose `id` is the editing
identifier replaced field-by-field by the submitted values, its `id`
kept, and every other record unchanged. -/
theorem C9_theorem (ref : Instant) (l : List Birthday) (eid newId : String)
    (base : BirthdayBase) :
    List.Perm (handleAdd ref l (some eid) newId base)
      (l.map (fun b =>
        if b.id = eid then
          { id := b.id, name := base.name, day := base.day, month := base.month,
            year := base.year, timezone := base.timezone,
            photoUrl := base.photoUrl }
        else b)) :=
  List.perm_insertionSort (daysLE ref) _
